import Mathlib

/-!
Verification of the cadastral backend service (catastro-sp-module-nekazari).

This file gives a shallow embedding, in Lean 4, of the parts of the Python
source that the checked claims talk about:

* `backend/app/region_router.py` — region classification with bounding-box
  fallback geometries;
* `backend/app/cache_service.py` — the coordinate cache key;
* `backend/app/auth_middleware.py` — the gateway-trust auth decorator;
* `backend/app/catastro_clients.py` — feature-type filtering, the Navarra
  WFS client query loop, and municipality/province extraction;
* `backend/app/cadastral_api.py` — parcel CRUD (soft delete), batch NDVI,
  manual parcel creation, and the coordinate lookup endpoint.

External effects (HTTP, SOAP, the SQL store, Redis) are modelled by explicit
state passing or oracle functions; numbers are exact rationals; Python
truthiness on optional strings is modelled by `pyOrS` / falsy checks.
-/



/-! ## Small Python-semantics helpers -/



/-- Python `a or b` on an optional string, where `None` and the empty
string are falsy, as used all over the source for fallback chains. -/
def pyOrS (a b : Option String) : Option String :=
  match a with
  | some s => if s = "" then b else some s
  | none => b

/-- Python truthiness of an optional string: `None` and `""` are falsy. -/
def pyTruthy (a : Option String) : Bool :=
  match a with
  | some s => decide (s ≠ "")
  | none => false

/-- Python `str.strip()` on a list of characters (whitespace removed from
both ends). -/
def pyStripChars (s : List Char) : List Char :=
  ((s.dropWhile Char.isWhitespace).reverse.dropWhile Char.isWhitespace).reverse

/-- Python `str.strip()` on a string. -/
def pyStrip (s : String) : String :=
  String.mk (pyStripChars s.toList)

/-- Substring occurrence on character lists: `needle` occurs contiguously
somewhere in the second argument. -/
def listContainsSub (needle : List Char) : List Char → Bool
  | [] => needle.isPrefixOf []
  | c :: rest => needle.isPrefixOf (c :: rest) || listContainsSub needle rest

/-- Python substring membership test `needle in haystack` (after the caller
has lower-cased as the source does). -/
def containsSub (haystack needle : String) : Bool :=
  listContainsSub needle.toList haystack.toList

/-! ## Region router (`backend/app/region_router.py`)

The claims are about the bounding-box fallback geometries, used when the
simplified-boundary GeoJSON files are absent (they are not in the
repository).  Shapely `Polygon.contains(point)` on an axis-aligned
rectangle holds exactly when the point is strictly inside the rectangle
(boundary points are not contained), so containment is embedded as strict
bound comparisons against the extremes of the vertex list. -/



/-- Vertex list of `RegionRouter._get_navarra_bbox` (lon, lat pairs). -/
def navarraBBoxVertices : List (ℚ × ℚ) :=
  [(-2.5, 42.0), (-1.0, 42.0), (-1.0, 43.5), (-2.5, 43.5), (-2.5, 42.0)]

/-- Vertex list of `RegionRouter._get_euskadi_bbox` (lon, lat pairs). -/
def euskadiBBoxVertices : List (ℚ × ℚ) :=
  [(-3.5, 42.8), (-1.5, 42.8), (-1.5, 43.6), (-3.5, 43.6), (-3.5, 42.8)]

/-- Minimum of a list of rationals (0 for the empty list, which does not
occur for the bbox vertex lists). -/
def coordsMin (xs : List ℚ) : ℚ :=
  match xs with
  | [] => 0
  | x :: rest => rest.foldl min x

/-- Maximum of a list of rationals (0 for the empty list). -/
def coordsMax (xs : List ℚ) : ℚ :=
  match xs with
  | [] => 0
  | x :: rest => rest.foldl max x

/-- Smallest first coordinate of a vertex list. -/
def minLon (vs : List (ℚ × ℚ)) : ℚ := coordsMin (vs.map Prod.fst)

/-- Largest first coordinate of a vertex list. -/
def maxLon (vs : List (ℚ × ℚ)) : ℚ := coordsMax (vs.map Prod.fst)

/-- Smallest second coordinate of a vertex list. -/
def minLat (vs : List (ℚ × ℚ)) : ℚ := coordsMin (vs.map Prod.snd)

/-- Largest second coordinate of a vertex list. -/
def maxLat (vs : List (ℚ × ℚ)) : ℚ := coordsMax (vs.map Prod.snd)

/-- Shapely strict containment of the point `(lon, lat)` in the axis-aligned
rectangle spanned by a bbox vertex list. -/
def rectContains (vs : List (ℚ × ℚ)) (lon lat : ℚ) : Bool :=
  decide (minLon vs < lon) && decide (lon < maxLon vs) &&
  decide (minLat vs < lat) && decide (lat < maxLat vs)

/-- Input to `RegionRouter.get_region`: either a usable coordinate pair or
an input on which shapely raises (`GEOSException`/`ValueError`/`TypeError`),
which the source catches and maps to the default region. -/
inductive RegionInput where
  | valid (latitude longitude : ℚ)
  | geometryError
deriving DecidableEq

/-- Embedding of `RegionRouter.get_region` over the bounding-box fallback
geometries: Navarra is tested first, then Euskadi, and both the
no-containment case and the exception path return the string for Spain. -/
def get_region (inp : RegionInput) : String :=
  match inp with
  | .geometryError => "spain"
  | .valid latitude longitude =>
    if rectContains navarraBBoxVertices longitude latitude then "navarra"
    else if rectContains euskadiBBoxVertices longitude latitude then "euskadi"
    else "spain"

/-! ## Cache service (`backend/app/cache_service.py`)

`CadastralCache._coord_key` rounds latitude and longitude with Python
`round(x, 6)` (round-half-to-even at 6 decimal places) and interpolates the
rounded floats into the key string.  The embedding keeps exact rationals,
rounds half-to-even at 6 decimals, and renders the rounded value the way
Python renders such floats (integer part, a dot, and the fractional digits
with trailing zeros stripped, `.0` when the fraction vanishes). -/



/-- Round a rational to the nearest integer, ties to even (the rounding
used by Python `round`). -/
def roundHalfEven (q : ℚ) : ℤ :=
  let f := ⌊q⌋
  let r := q - (f : ℚ)
  if r < 1 / 2 then f
  else if 1 / 2 < r then f + 1
  else if f % 2 = 0 then f else f + 1

/-- Render the rational `n / 10^6` the way Python renders the float
`round(x, 6)`: sign, integer part, a dot, and the 6 fractional digits with
trailing zeros stripped (a bare `.0` when the fraction is zero). -/
def renderRounded6 (n : ℤ) : String :=
  let m := n.natAbs
  let ip := m / 1000000
  let fp := m % 1000000
  let digits := Nat.toDigits 10 fp
  let padded := List.replicate (6 - digits.length) '0' ++ digits
  let stripped := (padded.reverse.dropWhile (fun c => c = '0')).reverse
  let frac := if stripped = [] then "0" else String.mk stripped
  (if n < 0 then "-" else "") ++ toString ip ++ "." ++ frac

/-- Embedding of `CadastralCache._coord_key` at the default precision 6:
the key is the prefixed string built from the two rounded coordinates. -/
def coord_key (lat lon : ℚ) : String :=
  "cadastral:coord:" ++ renderRounded6 (roundHalfEven (lat * 1000000)) ++
    ":" ++ renderRounded6 (roundHalfEven (lon * 1000000))

/-! ## Manual parcel creation (`cadastral_api.py`, `create_parcel`)

Line 290 of the source chooses the stored `cadastral_reference` with a
Python `or` chain over the request fields and a generated placeholder. -/



/-- Embedding of the reference choice
`data.get(cadastral_reference) or data.get(name) or (MANUAL- + str(int(time.time())))`
(quotes elided);
`ts` stands for the integer timestamp taken at creation time. -/
def chosen_cadastral_ref (cr nm : Option String) (ts : ℕ) : String :=
  match pyOrS cr (pyOrS nm (some ("MANUAL-" ++ toString ts))) with
  | some s => s
  | none => ""

/-! ## WFS feature-type filtering (`catastro_clients.py`,
`WFSCapabilitiesDiscovery.filter_cadastral_types`) -/



/-- Lower-casing as applied by `ft.lower()` in the source (the discovered
feature-type names are ASCII). -/
def strToLower (s : String) : String :=
  String.mk (s.toList.map Char.toLower)

/-- The `primary_keywords` list of `filter_cadastral_types`. -/
def primary_keywords : List String := ["parcel", "finca", "predio", "cp:cadastralparcel"]

/-- The `secondary_keywords` list of `filter_cadastral_types`. -/
def secondary_keywords : List String := ["catast", "rustic", "urban", "cp:"]

/-- The `excluded_keywords` list of `filter_cadastral_types`. -/
def excluded_keywords : List String :=
  ["municipio", "concejo", "cascourbano", "poligono", "txt", "lin_", "line", "pt_", "text", "edif"]

/-- Test `any(keyword in ft_lower for keyword in excluded_keywords)`. -/
def isExcluded (ft : String) : Bool :=
  excluded_keywords.any (fun k => containsSub (strToLower ft) k)

/-- Test `any(keyword in ft_lower for keyword in primary_keywords)`. -/
def isPrimary (ft : String) : Bool :=
  primary_keywords.any (fun k => containsSub (strToLower ft) k)

/-- Test `any(keyword in ft_lower for keyword in secondary_keywords)`. -/
def isSecondary (ft : String) : Bool :=
  secondary_keywords.any (fun k => containsSub (strToLower ft) k)

/-- The accumulation loop of `filter_cadastral_types`: walk the input in
order, skip excluded names, and append each remaining name to the primary
list if a primary keyword matches, else to the secondary list if a
secondary keyword matches. -/
def filterLoop : List String → List String × List String
  | [] => ([], [])
  | ft :: rest =>
    if isExcluded ft then filterLoop rest
    else if isPrimary ft then
      match filterLoop rest with
      | (p, s) => (ft :: p, s)
    else if isSecondary ft then
      match filterLoop rest with
      | (p, s) => (p, ft :: s)
    else filterLoop rest

/-- Embedding of `WFSCapabilitiesDiscovery.filter_cadastral_types`:
primary matches followed by secondary matches; if that is empty while the
input is not, fall back to the input with only the exclusions removed. -/
def filter_cadastral_types (feature_types : List String) : List String :=
  let ps := filterLoop feature_types
  let result := ps.1 ++ ps.2
  if result = [] ∧ feature_types ≠ [] then
    feature_types.filter (fun ft => !isExcluded ft)
  else result







/-! ## Municipality/province extraction (`catastro_clients.py`,
`SpanishStateCatastroClient._extract_municipality_province`)

The source applies `re.search` with the single pattern
`([^(]+)\s*\(([^)]+)\)$` to the stripped address and returns
`(None, None)` when it does not match.  The scan below is the semantics of
that search: the whole string must end in a closing parenthesis; the
engine uses the leftmost opening parenthesis whose tail (up to the final
closing one) is non-empty and free of closing parentheses, provided at
least one character stands between the previous opening parenthesis (or
the start) and it; group 1 is that run of characters, group 2 the tail,
both stripped. -/



/-- Scan of the body (the stripped address without its final closing
parenthesis): `before` accumulates, in reverse, the characters seen since
the last opening parenthesis. -/
def munProvScan : List Char → List Char → Option (String × String)
  | _, [] => none
  | before, c :: rest =>
    if c = '(' then
      if before ≠ [] ∧ rest ≠ [] ∧ ¬ rest.contains ')' then
        some (String.mk (pyStripChars before.reverse), String.mk (pyStripChars rest))
      else munProvScan [] rest
    else munProvScan (c :: before) rest

/-- Embedding of `_extract_municipality_province`: empty address short
circuits, otherwise the stripped address is matched against the
parenthesized-province pattern; on failure both components are absent. -/
def extract_municipality_province (address : String) : Option String × Option String :=
  if address = "" then (none, none)
  else
    let s := pyStripChars address.toList
    match s.getLast? with
    | some ')' =>
      match munProvScan [] s.dropLast with
      | some (m, p) => (some m, some p)
      | none => (none, none)
    | _ => (none, none)

/-- Python `str.split(',')` on a list of characters. -/
def splitOnComma : List Char → List (List Char)
  | [] => [[]]
  | c :: rest =>
    if c = ',' then [] :: splitOnComma rest
    else
      match splitOnComma rest with
      | t :: ts => (c :: t) :: ts
      | [] => [[c]]

/-- Modelled from the claim wording only (for comparison against the
source): after the parenthesized pattern (a), the claim posits (b) a
pattern `...,municipality,province` anchored at the end and (c) a naive
comma split taking the last segment as municipality and the second-to-last
as province. -/
def claimedExtractMunicipalityProvince (address : String) : Option String × Option String :=
  if address = "" then (none, none)
  else
    let s := pyStripChars address.toList
    match s.getLast? with
    | some ')' =>
      match munProvScan [] s.dropLast with
      | some (m, p) => (some m, some p)
      | none => (none, none)
    | _ =>
      let segs := splitOnComma s
      if h : 2 ≤ segs.length then
        let lastSeg := String.mk (pyStripChars (segs.getLast (by
          intro hnil
          rw [hnil] at h
          simp at h)))
        let prevSeg := String.mk (pyStripChars (segs.getD (segs.length - 2) []))
        if 3 ≤ segs.length then (some prevSeg, some lastSeg)
        else (some lastSeg, some prevSeg)
      else (none, none)

/-! ## JSON-ish dictionaries

The REST responses and the client results are Python dicts serialized by
`jsonify`.  They are embedded as insertion-ordered association lists; the
value type covers what the modelled code stores: JSON null, strings, the
`lon`/`lat` coordinate pair, and a GeoJSON geometry object abstracted to
its `type` tag (the only part of a geometry the modelled code inspects). -/



/-- JSON values appearing in the modelled responses. -/
inductive JVal where
  | null
  | str (s : String)
  | coordPair (lon lat : ℚ)
  | geo (gtype : String)
deriving DecidableEq

/-- A Python dict as an insertion-ordered association list. -/
abbrev Dict := List (String × JVal)

/-- Dict lookup (first binding wins; keys are unique in all constructed
dicts). -/
def dictGet (d : Dict) (k : String) : Option JVal :=
  (d.find? (fun e => decide (e.1 = k))).map Prod.snd

/-- Python `k in d`. -/
def dictHasKey (d : Dict) (k : String) : Bool := (dictGet d k).isSome

/-- Python `d.setdefault(k, v)`: append the binding only when the key is
absent. -/
def dictSetdefault (d : Dict) (k : String) (v : JVal) : Dict :=
  if dictHasKey d k then d else d ++ [(k, v)]

/-- Python `d[k] = v`: overwrite in place, or append when absent. -/
def dictAssign (d : Dict) (k : String) (v : JVal) : Dict :=
  if dictHasKey d k then d.map (fun e => if e.1 = k then (k, v) else e)
  else d ++ [(k, v)]

/-- A string option rendered as a JSON value (`None` becomes null). -/
def optStrJVal : Option String → JVal
  | some s => .str s
  | none => .null

/-- An optional geometry rendered as a JSON value. -/
def optGeoJVal : Option String → JVal
  | some g => .geo g
  | none => .null

/-! ## Parcel CRUD with soft delete (`cadastral_api.py`)

The store is the `cadastral_parcels` table as seen by the request after
the per-connection tenant context is set; columns not consulted by the
modelled operations are abstracted away.  The SQL of `list_parcels`
filters `tenant_id = %s AND is_active = true` (its `ORDER BY created_at
DESC` only permutes the result and is not modelled); `get_parcel` selects
by `id` alone, with no `is_active` and no `tenant_id` condition in the
query text; `delete_parcel` updates `is_active = false` on the matching
row and reports 404 only when no row matched. -/



/-- A row of `cadastral_parcels`, restricted to the columns the modelled
operations consult. -/
structure ParcelRow where
  id : String
  tenant_id : String
  is_active : Bool
  cadastral_reference : String
  created_at : ℕ
deriving DecidableEq

/-- Embedding of the `list_parcels` query
`WHERE tenant_id = %s AND is_active = true`. -/
def list_parcels (store : List ParcelRow) (tenant : String) : List ParcelRow :=
  store.filter (fun r => decide (r.tenant_id = tenant) && r.is_active)

/-- Embedding of `get_parcel`: fetch by `WHERE id = %s` (no `is_active`
filter), 404 exactly when no row has the id. -/
def get_parcel (store : List ParcelRow) (pid : String) : ℕ × Option ParcelRow :=
  match store.find? (fun r => decide (r.id = pid)) with
  | some r => (200, some r)
  | none => (404, none)

/-- Embedding of `delete_parcel`: set `is_active = false` on rows matching
the id; 404 when no row matched, else 200.  Rows are never removed. -/
def delete_parcel (store : List ParcelRow) (pid : String) : ℕ × List ParcelRow :=
  let updated := store.map (fun r => if r.id = pid then { r with is_active := false } else r)
  if store.any (fun r => decide (r.id = pid)) then (200, updated) else (404, store)

/-! ## Batch NDVI requests (`cadastral_api.py`, `batch_request_ndvi`)

The handler rejects an empty id list with 400, selects the rows matching
`id = ANY(%s) AND ndvi_enabled = true` (the rows visible to the request
after the tenant context is set), forwards each valid row to the entity
manager (modelled as an oracle on the row), and answers 202 when at least
one forward succeeded, else 207, with the accounting fields computed from
the id list, the valid rows, and the two outcome lists. -/



/-- A row of `cadastral_parcels` as consulted by the batch NDVI handler. -/
structure NdviParcelRow where
  id : String
  ndvi_enabled : Bool
  geometry : Option String
  orion_entity_id : Option String
deriving DecidableEq

/-- Outcome of one `POST /ndvi/jobs` forward to the entity manager. -/
inductive JobOutcome where
  | success (job_id job_status : String)
  | httpError (err : String)
  | requestExc (err : String)
deriving DecidableEq

/-- Body of the batch response (paired with the HTTP status by the
endpoint embedding). -/
structure BatchNdviResponse where
  requested : ℕ
  valid : ℕ
  successful : ℕ
  failed : ℕ
  jobs : List (String × String × String)
  errors : List (String × String)
deriving DecidableEq

/-- Embedding of the row selection
`WHERE id = ANY(%s) AND ndvi_enabled = true`. -/
def batch_valid_parcels (store : List NdviParcelRow) (ids : List String) :
    List NdviParcelRow :=
  store.filter (fun r => ids.contains r.id && r.ndvi_enabled)

/-- The per-parcel forwarding loop, accumulating successful jobs and
failures in input order. -/
def batchLoop (oracle : NdviParcelRow → JobOutcome) :
    List NdviParcelRow → List (String × String × String) × List (String × String)
  | [] => ([], [])
  | p :: rest =>
    match oracle p with
    | .success j s =>
      match batchLoop oracle rest with
      | (su, fa) => ((p.id, j, s) :: su, fa)
    | .httpError e =>
      match batchLoop oracle rest with
      | (su, fa) => (su, (p.id, e) :: fa)
    | .requestExc e =>
      match batchLoop oracle rest with
      | (su, fa) => (su, (p.id, e) :: fa)

/-- Embedding of `batch_request_ndvi` after authentication: 400 with no
body for an empty id list, else the accounting body with status
`202 if successful_jobs else 207`. -/
def batch_request_ndvi (store : List NdviParcelRow) (oracle : NdviParcelRow → JobOutcome)
    (parcel_ids : List String) : ℕ × Option BatchNdviResponse :=
  if parcel_ids = [] then (400, none)
  else
    let valids := batch_valid_parcels store parcel_ids
    let outcome := batchLoop oracle valids
    ((if outcome.1 ≠ [] then 202 else 207),
      some { requested := parcel_ids.length, valid := valids.length,
             successful := outcome.1.length, failed := outcome.2.length,
             jobs := outcome.1, errors := outcome.2 })

/-! ## Gateway-trust auth middleware (`backend/app/auth_middleware.py`)

`require_auth` wraps a route handler.  Token decoding (`jwt.decode` with
signature verification off, expiration verification on) is an oracle from
the token text to a decode result; the payload is modelled by its
string-valued claims plus the realm-roles list that the decorator reads
via the realm_access roles list (empty when absent). -/



/-- The decoded JWT payload as consulted by the decorator. -/
structure JwtPayload where
  claims : List (String × String)
  roles : List String
deriving DecidableEq

/-- Python `payload.get(k)` over the string-valued claims. -/
def claimGet (p : JwtPayload) (k : String) : Option String :=
  (p.claims.find? (fun e => decide (e.1 = k))).map Prod.snd

/-- Result of `jwt.decode(token, ...)`: a payload, the expired-signature
exception, or any other exception. -/
inductive DecodeResult where
  | ok (payload : JwtPayload)
  | expired
  | failure
deriving DecidableEq

/-- The request headers consulted by the decorator. -/
structure AuthRequest where
  authorization : Option String
  xTenantId : Option String
deriving DecidableEq

/-- The per-request context stored in Flask `g` on success. -/
structure RequestContext where
  current_user : JwtPayload
  tenant : String
  tenant_id : String
  user_id : Option String
  username : Option String
  email : Option String
  roles : List String
deriving DecidableEq

/-- Decorator outcome: a JSON error response or the wrapped handler
running with the populated context. -/
inductive AuthOutcome where
  | reject (status : ℕ) (error : String)
  | allow (ctx : RequestContext)
deriving DecidableEq

/-- Python `str.split(' ')`. -/
def splitOnSpace : List Char → List (List Char)
  | [] => [[]]
  | c :: rest =>
    if c = ' ' then [] :: splitOnSpace rest
    else
      match splitOnSpace rest with
      | t :: ts => (c :: t) :: ts
      | [] => [[c]]

/-- The token text `auth_header.split(' ')[1]` (the guard guarantees a
space is present, so index 1 exists). -/
def bearerToken (h : String) : String :=
  String.mk ((splitOnSpace h.toList).getD 1 [])

/-- The guard testing that the authorization header starts with the text
Bearer followed by a space. -/
def startsWithBearer (h : String) : Bool :=
  "Bearer ".toList.isPrefixOf h.toList

/-- Tenant resolution: the `X-Tenant-ID` header when truthy, else the
first truthy of the `tenant-id`, `tenant_id` and `tenant` claims. -/
def resolvedTenant (req : AuthRequest) (p : JwtPayload) : Option String :=
  pyOrS req.xTenantId
    (pyOrS (claimGet p "tenant-id") (pyOrS (claimGet p "tenant_id") (claimGet p "tenant")))

/-- Embedding of the `require_auth` decorator. -/
def require_auth (decode : String → DecodeResult) (req : AuthRequest) : AuthOutcome :=
  match req.authorization with
  | none => .reject 401 "Missing or invalid authorization header"
  | some h =>
    if startsWithBearer h = false then
      .reject 401 "Missing or invalid authorization header"
    else
      match decode (bearerToken h) with
      | .expired => .reject 401 "Token has expired"
      | .failure => .reject 500 "Authentication error"
      | .ok payload =>
        match resolvedTenant req payload with
        | none => .reject 401 "Tenant ID not found"
        | some t =>
          if t = "" then .reject 401 "Tenant ID not found"
          else
            .allow { current_user := payload, tenant := t, tenant_id := t,
                     user_id := claimGet payload "sub",
                     username := claimGet payload "preferred_username",
                     email := claimGet payload "email",
                     roles := payload.roles }

/-! ## Navarra WFS client (`catastro_clients.py`,
`NavarraCatastroClient.query_by_coordinates`)

The WFS network interaction is an oracle from the feature-type name to the
response of the `GetFeature` request for it (the bbox and srs parameters
are fixed by the inputs and do not vary per attempt).  A GeoJSON feature
is modelled by its `id`, its string-valued properties, and its geometry
abstracted to the `type` tag (the only part the client inspects before
passing the geometry through). -/



/-- A GeoJSON feature as consulted by the Navarra client. -/
structure WfsFeature where
  fid : Option String
  properties : List (String × String)
  geometry : Option String
deriving DecidableEq

/-- Response of one `GetFeature` attempt: parsed JSON with a feature list,
a non-JSON body, a non-200 status, or a raised request exception.  All but
a JSON body with features make the loop continue. -/
inductive WfsResp where
  | jsonResp (features : List WfsFeature)
  | notJson
  | httpStatus (code : ℕ)
  | requestExc
deriving DecidableEq

/-- The features of a response when the loop would break on it:
the features key is present in the parsed body with a non-empty list. -/
def respFeatures : WfsResp → Option (List WfsFeature)
  | .jsonResp fs => if fs.isEmpty then none else some fs
  | _ => none

/-- The `for feature_type in feature_types` loop with its `for ... else`:
the data of the first feature type whose response breaks the loop, absent
when every type falls through. -/
def navarraTryTypes (oracle : String → WfsResp) : List String → Option (List WfsFeature)
  | [] => none
  | t :: rest =>
    match respFeatures (oracle t) with
    | some fs => some fs
    | none => navarraTryTypes oracle rest

/-- Python `properties.get(k)`. -/
def propGet (props : List (String × String)) (k : String) : Option String :=
  (props.find? (fun e => decide (e.1 = k))).map Prod.snd

/-- Fuel-driven helper removing every occurrence of `pat` from a string,
as Python replace with an empty replacement does (the fuel is the
length of `s`; every step consumes at least one character). -/
def pyRemoveAllAux (pat : List Char) : ℕ → List Char → List Char
  | 0, s => s
  | _ + 1, [] => []
  | fuel + 1, c :: rest =>
    if pat.isPrefixOf (c :: rest) then
      pyRemoveAllAux pat fuel (List.drop pat.length (c :: rest))
    else c :: pyRemoveAllAux pat fuel rest

/-- Removal of every occurrence of `pat`, as the Python replace call with
an empty replacement does, for a non-empty pattern (the one call site
uses the fixed pattern `ES.RRTN.CP.`). -/
def pyRemoveAll (s pat : String) : String :=
  if pat.toList = [] then s
  else String.mk (pyRemoveAllAux pat.toList s.toList.length s.toList)

/-- Keys always present in a normalized coordinate-lookup response (see
the `setdefault` block of `query_by_coordinates` in `cadastral_api.py`). -/
def normalizedKeys : List String :=
  ["cadastralReference", "municipality", "province", "address", "coordinates", "geometry",
   "region"]

/-- Keys of the not-found coordinate-lookup response: the normalized keys
plus the error and message fields. -/
def notFoundKeys : List String := normalizedKeys ++ ["error", "message"]

/-- Processing of the first feature of the response by the Navarra
client: reference
fallback chain (ending in the feature id with the IDENA URN prefix
stripped), municipality and address property fallback chains, geometry
kept only when its type tag is Polygon or MultiPolygon, and the
single-candidate result dict. -/
def navarraProcessFeature (f : WfsFeature) (lon lat : ℚ) : Option Dict :=
  let cadastralRef :=
    pyOrS (propGet f.properties "localId")
      (pyOrS (propGet f.properties "inspireId")
        (pyOrS (propGet f.properties "cadastralReference")
          (pyOrS (propGet f.properties "id")
            (pyOrS (propGet f.properties "REFCAT")
              (some (pyRemoveAll (f.fid.getD "") "ES.RRTN.CP."))))))
  if pyTruthy cadastralRef = false then none
  else
    let municipality :=
      pyOrS (propGet f.properties "municipality")
        (pyOrS (propGet f.properties "municipio")
          (pyOrS (propGet f.properties "municipalityName")
            (pyOrS (propGet f.properties "nombreMunicipio")
              (pyOrS (propGet f.properties "MUNICIPIO")
                (pyOrS (propGet f.properties "NOMBRE_MUNICIPIO")
                  (pyOrS (propGet f.properties "MUNICIPIO_NOMBRE")
                    (pyOrS (propGet f.properties "NOMBRE") none)))))))
    let address :=
      pyOrS (propGet f.properties "address")
        (pyOrS (propGet f.properties "direccion")
          (pyOrS (propGet f.properties "addressText")
            (pyOrS (propGet f.properties "DIRECCION") none)))
    let geometry : Option String :=
      match f.geometry with
      | some g => if g = "Polygon" ∨ g = "MultiPolygon" then some g else none
      | none => none
    some [("cadastralReference", .str (cadastralRef.getD "")),
          ("municipality", optStrJVal municipality),
          ("province", .str "Navarra"),
          ("address", optStrJVal address),
          ("coordinates", .coordPair lon lat),
          ("geometry", optGeoJVal geometry),
          ("region", .str "navarra")]

/-- Embedding of `NavarraCatastroClient.query_by_coordinates` over the
response oracle and the resolved feature-type list: the loop breaks at
the first type with features and only the first feature of its response is
processed. -/
def navarra_query_by_coordinates (oracle : String → WfsResp) (feature_types : List String)
    (lon lat : ℚ) : Option Dict :=
  match navarraTryTypes oracle feature_types with
  | none => none
  | some fs =>
    match fs with
    | [] => none
    | f :: _ => navarraProcessFeature f lon lat

/-- Feature returned for the first feature type in the two-type scenario. -/
def navFeatureA : WfsFeature :=
  ⟨some "ES.RRTN.CP.REF1", [("localId", "REF1")], some "Polygon"⟩

/-- Feature returned for the second feature type in the two-type
scenario. -/
def navFeatureB : WfsFeature :=
  ⟨none, [("localId", "REF2")], none⟩

/-- Oracle where both attempted feature types return one feature each. -/
def navOracleTwoTypes : String → WfsResp := fun t =>
  if t = "TypeA" then .jsonResp [navFeatureA] else .jsonResp [navFeatureB]

/-- Oracle where only the first attempted feature type returns features. -/
def navOracleFirstOnly : String → WfsResp := fun t =>
  if t = "TypeA" then .jsonResp [navFeatureA] else .jsonResp []

/-- The result the Navarra client produces in both scenarios. -/
def navResultREF1 : Dict :=
  [("cadastralReference", .str "REF1"), ("municipality", .null),
   ("province", .str "Navarra"), ("address", .null), ("coordinates", .coordPair 0 43),
   ("geometry", .geo "Polygon"), ("region", .str "navarra")]

/-! ## Coordinate lookup endpoint (`cadastral_api.py`, `query_by_coordinates`)

The endpoint is modelled after input validation succeeds, with the three
regional clients as oracle functions of the coordinates.  The cache path
only replays a previously normalized response, and the
client-unavailable (503) and unknown-region (500) branches lie outside
the found/not-found outcomes; `get_region` always produces one of the
three known region strings, so the dispatch below is total. -/



/-- Dispatch to the regional client selected by the region string. -/
def dispatchClient (spainQ navarraQ euskadiQ : ℚ → ℚ → Option Dict) (region : String)
    (lon lat : ℚ) : Option Dict :=
  if region = "spain" then spainQ lon lat
  else if region = "navarra" then navarraQ lon lat
  else euskadiQ lon lat

/-- The normalization block applied to a found client result: one
`setdefault` per normalized field, then the region assignment. -/
def normalizeClientData (d : Dict) (lon lat : ℚ) (region : String) : Dict :=
  dictAssign
    (dictSetdefault
      (dictSetdefault
        (dictSetdefault
          (dictSetdefault
            (dictSetdefault
              (dictSetdefault d "cadastralReference" .null)
              "municipality" .null)
            "province" .null)
          "address" .null)
        "coordinates" (.coordPair lon lat))
      "geometry" .null)
    "region" (.str region)

/-- The literal not-found response body. -/
def notFoundResponse (lon lat : ℚ) (region : String) : Dict :=
  [("cadastralReference", .null), ("municipality", .null), ("province", .null),
   ("address", .null), ("coordinates", .coordPair lon lat), ("geometry", .null),
   ("region", .str region), ("error", .str "Parcel not found"),
   ("message", .str "No cadastral parcel found at the given coordinates")]

/-- Embedding of the coordinate-lookup endpoint after authentication:
bounds validation, region classification, dispatch, and normalization of
the found and not-found outcomes. -/
def query_by_coordinates (spainQ navarraQ euskadiQ : ℚ → ℚ → Option Dict)
    (lon lat : ℚ) : ℕ × Dict :=
  if ¬ ((-10 : ℚ) ≤ lon ∧ lon ≤ 5) ∨ ¬ ((35 : ℚ) ≤ lat ∧ lat ≤ 45) then
    (400, [("error", .str "Coordinates out of valid range"),
           ("message", .str "Coordinates must be within Spain bounds")])
  else
    match dispatchClient spainQ navarraQ euskadiQ (get_region (.valid lat lon)) lon lat with
    | some d => (200, normalizeClientData d lon lat (get_region (.valid lat lon)))
    | none => (404, notFoundResponse lon lat (get_region (.valid lat lon)))

/-! ## Theorems

All theorems of the development follow; the definitions above are the
complete embedding. -/

theorem pyOrS_none_right (a : Option String) : pyOrS a none = if pyTruthy a then a else none := by
  cases a with
  | none => rfl
  | some s =>
    by_cases h : s = "" <;> simp [pyOrS, pyTruthy, h]

theorem pyTruthy_iff (a : Option String) : pyTruthy a = true ↔ ∃ s, a = some s ∧ s ≠ "" := by
  cases a with
  | none => simp [pyTruthy]
  | some s => simp [pyTruthy]

theorem filterLoop_eq_filters (fts : List String) :
    filterLoop fts =
      (fts.filter (fun ft => !isExcluded ft && isPrimary ft),
       fts.filter (fun ft => !isExcluded ft && !isPrimary ft && isSecondary ft)) := by
  induction fts with
  | nil => rfl
  | cons ft rest ih =>
    by_cases he : isExcluded ft
    · simp [filterLoop, he, List.filter, ih]
    · by_cases hp : isPrimary ft
      · simp [filterLoop, he, hp, List.filter, ih]
      · by_cases hs : isSecondary ft
        · simp [filterLoop, he, hp, hs, List.filter, ih]
        · simp [filterLoop, he, hp, hs, List.filter, ih]

/-- C7.  Feature-type filtering: on the concrete discovered list,
`municipio_limite` and `catast_linea` are excluded and the two parcel
types come back as primary matches in their original relative order; in
general the result is the primary matches followed by the secondary
matches, each preserving input order, and when exclusion plus matching
empties a non-empty input the function falls back to the input filtered
only by the exclusion list. -/
theorem filter_cadastral_types_spec :
    filter_cadastral_types
        ["municipio_limite", "CATAST_Pol_ParcelaUrba", "CP:CadastralParcel", "catast_linea"] =
      ["CATAST_Pol_ParcelaUrba", "CP:CadastralParcel"] ∧
    isPrimary "CATAST_Pol_ParcelaUrba" = true ∧
    isPrimary "CP:CadastralParcel" = true ∧
    isExcluded "municipio_limite" = true ∧
    isExcluded "catast_linea" = true ∧
    (∀ fts : List String,
      (filterLoop fts).1 = fts.filter (fun ft => !isExcluded ft && isPrimary ft) ∧
      (filterLoop fts).2 =
        fts.filter (fun ft => !isExcluded ft && !isPrimary ft && isSecondary ft)) ∧
    (∀ fts : List String, (filterLoop fts).1 ++ (filterLoop fts).2 ≠ [] →
      filter_cadastral_types fts = (filterLoop fts).1 ++ (filterLoop fts).2) ∧
    (∀ fts : List String, fts ≠ [] → (filterLoop fts).1 ++ (filterLoop fts).2 = [] →
      filter_cadastral_types fts = fts.filter (fun ft => !isExcluded ft)) := by
  refine ⟨by decide, by decide, by decide, by decide, by decide, ?_, ?_, ?_⟩
  · intro fts
    rw [filterLoop_eq_filters]
    exact ⟨rfl, rfl⟩
  · intro fts h
    simp only [filter_cadastral_types]
    simp [h]
  · intro fts hne h
    simp only [filter_cadastral_types]
    simp [h, hne]

/-- Closed instantiation of the quantified parts of
`filter_cadastral_types_spec`: the fallback branch fires on a non-empty
input whose every name is excluded or unmatched. -/
theorem filter_cadastral_types_spec_witness :
    filter_cadastral_types ["municipio_limite", "foo"] = ["foo"] ∧
    (filterLoop ["CP:CadastralParcel", "foo"]).1 = ["CP:CadastralParcel"] := by
  constructor
  · have h := filter_cadastral_types_spec.2.2.2.2.2.2.2 ["municipio_limite", "foo"]
      (by decide) (by decide)
    rw [h]; decide
  · have h := (filter_cadastral_types_spec.2.2.2.2.2.1 ["CP:CadastralParcel", "foo"]).1
    rw [h]; decide

/-! ## Theorems for the manual-creation reference choice -/

/-- C10.  On manual parcel creation the stored reference falls back from
`cadastral_reference` to `name` to the generated placeholder: a falsy
(absent or empty) `cadastral_reference` together with a present non-empty
`name` stores the name; a truthy `cadastral_reference` is stored as is;
the `MANUAL-` placeholder is produced exactly on the branch where both
request fields are falsy, and whenever either field is truthy the stored
value comes from the request fields. -/
theorem create_parcel_reference_fallback (cr nm : Option String) (ts : ℕ) :
    (pyTruthy cr = false → ∀ n, nm = some n → n ≠ "" →
      chosen_cadastral_ref cr nm ts = n) ∧
    (∀ s, cr = some s → s ≠ "" → chosen_cadastral_ref cr nm ts = s) ∧
    (pyTruthy cr = false → pyTruthy nm = false →
      chosen_cadastral_ref cr nm ts = "MANUAL-" ++ toString ts) ∧
    (pyTruthy cr = true ∨ pyTruthy nm = true →
      ∃ v, (cr = some v ∨ nm = some v) ∧ v ≠ "" ∧ chosen_cadastral_ref cr nm ts = v) := by
  refine ⟨?_, ?_, ?_, ?_⟩
  · intro hcr n hn hne
    cases cr with
    | none => simp [chosen_cadastral_ref, pyOrS, hn, hne]
    | some s =>
      have hs : s = "" := by
        by_contra hx
        simp [pyTruthy, hx] at hcr
      simp [chosen_cadastral_ref, pyOrS, hs, hn, hne]
  · intro s hcr hs
    simp [chosen_cadastral_ref, pyOrS, hcr, hs]
  · intro hcr hnm
    cases cr with
    | none =>
      cases nm with
      | none => simp [chosen_cadastral_ref, pyOrS]
      | some n =>
        have hn : n = "" := by
          by_contra hx
          simp [pyTruthy, hx] at hnm
        simp [chosen_cadastral_ref, pyOrS, hn]
    | some s =>
      have hs : s = "" := by
        by_contra hx
        simp [pyTruthy, hx] at hcr
      cases nm with
      | none => simp [chosen_cadastral_ref, pyOrS, hs]
      | some n =>
        have hn : n = "" := by
          by_contra hx
          simp [pyTruthy, hx] at hnm
        simp [chosen_cadastral_ref, pyOrS, hs, hn]
  · intro h
    cases hcr : pyTruthy cr with
    | true =>
      obtain ⟨s, hs, hsne⟩ := (pyTruthy_iff cr).mp hcr
      exact ⟨s, Or.inl hs, hsne, by simp [chosen_cadastral_ref, pyOrS, hs, hsne]⟩
    | false =>
      have hnm : pyTruthy nm = true := by
        rcases h with h | h
        · rw [hcr] at h; exact absurd h (by simp)
        · exact h
      obtain ⟨n, hn, hnne⟩ := (pyTruthy_iff nm).mp hnm
      refine ⟨n, Or.inr hn, hnne, ?_⟩
      cases cr with
      | none => simp [chosen_cadastral_ref, pyOrS, hn, hnne]
      | some s =>
        have hs : s = "" := by
          by_contra hx
          simp [pyTruthy, hx] at hcr
        simp [chosen_cadastral_ref, pyOrS, hs, hn, hnne]

/-- Closed instantiation of `create_parcel_reference_fallback`: with
`cadastral_reference` absent and `name` present, the name is stored. -/
theorem create_parcel_reference_fallback_witness :
    chosen_cadastral_ref none (some "My field") 1700000000 = "My field" :=
  (create_parcel_reference_fallback none (some "My field") 1700000000).1
    (by decide) "My field" rfl (by decide)

/-! ## Theorems for the region router -/

theorem rectContains_navarra_iff (lon lat : ℚ) :
    rectContains navarraBBoxVertices lon lat = true ↔
      (-2.5 : ℚ) < lon ∧ lon < -1 ∧ (42 : ℚ) < lat ∧ lat < 43.5 := by
  simp only [rectContains, navarraBBoxVertices, minLon, maxLon, minLat, maxLat, coordsMin,
    coordsMax, List.map, List.foldl, Bool.and_eq_true, decide_eq_true_eq]
  norm_num
  tauto

theorem rectContains_euskadi_iff (lon lat : ℚ) :
    rectContains euskadiBBoxVertices lon lat = true ↔
      (-3.5 : ℚ) < lon ∧ lon < -1.5 ∧ (42.8 : ℚ) < lat ∧ lat < 43.6 := by
  simp only [rectContains, euskadiBBoxVertices, minLon, maxLon, minLat, maxLat, coordsMin,
    coordsMax, List.map, List.foldl, Bool.and_eq_true, decide_eq_true_eq]
  norm_num
  tauto

/-- C3.  Region classification with the bounding-box fallback geometries:
any point strictly inside the Navarra box classifies as `navarra`
(regardless of Euskadi containment, because Navarra is tested first), a
point inside the Euskadi box that is not contained in the Navarra box
classifies as `euskadi`, a point contained in neither box classifies as
`spain`, and the geometry-error path also yields `spain`; concretely,
Pamplona classifies as `navarra` although it also lies inside the Euskadi
box, an interior Euskadi point classifies as `euskadi`, and Madrid
classifies as `spain`. -/
theorem get_region_classification :
    (∀ lat lon : ℚ, (-2.5 : ℚ) < lon → lon < -1 → (42 : ℚ) < lat → lat < 43.5 →
      get_region (.valid lat lon) = "navarra") ∧
    (∀ lat lon : ℚ, rectContains navarraBBoxVertices lon lat = false →
      (-3.5 : ℚ) < lon → lon < -1.5 → (42.8 : ℚ) < lat → lat < 43.6 →
      get_region (.valid lat lon) = "euskadi") ∧
    (∀ lat lon : ℚ, rectContains navarraBBoxVertices lon lat = false →
      rectContains euskadiBBoxVertices lon lat = false →
      get_region (.valid lat lon) = "spain") ∧
    get_region .geometryError = "spain" ∧
    get_region (.valid 42.8169 (-1.6432)) = "navarra" ∧
    rectContains euskadiBBoxVertices (-1.6432) 42.8169 = true ∧
    get_region (.valid 43 (-3)) = "euskadi" ∧
    get_region (.valid 40.4168 (-3.7038)) = "spain" := by
  have hnavF : ∀ lon lat : ℚ, ¬ ((-2.5 : ℚ) < lon ∧ lon < -1 ∧ (42 : ℚ) < lat ∧ lat < 43.5) →
      rectContains navarraBBoxVertices lon lat = false := by
    intro lon lat h
    rcases hb : rectContains navarraBBoxVertices lon lat with _ | _
    · rfl
    · exact absurd ((rectContains_navarra_iff lon lat).mp hb) h
  have heusF : ∀ lon lat : ℚ, ¬ ((-3.5 : ℚ) < lon ∧ lon < -1.5 ∧ (42.8 : ℚ) < lat ∧ lat < 43.6) →
      rectContains euskadiBBoxVertices lon lat = false := by
    intro lon lat h
    rcases hb : rectContains euskadiBBoxVertices lon lat with _ | _
    · rfl
    · exact absurd ((rectContains_euskadi_iff lon lat).mp hb) h
  refine ⟨?_, ?_, ?_, rfl, ?_, ?_, ?_, ?_⟩
  · intro lat lon h1 h2 h3 h4
    have hc : rectContains navarraBBoxVertices lon lat = true :=
      (rectContains_navarra_iff lon lat).mpr ⟨h1, h2, h3, h4⟩
    simp [get_region, hc]
  · intro lat lon hnav h1 h2 h3 h4
    have hc : rectContains euskadiBBoxVertices lon lat = true :=
      (rectContains_euskadi_iff lon lat).mpr ⟨h1, h2, h3, h4⟩
    simp [get_region, hnav, hc]
  · intro lat lon hnav heus
    simp [get_region, hnav, heus]
  · have hc : rectContains navarraBBoxVertices (-1.6432) 42.8169 = true :=
      (rectContains_navarra_iff _ _).mpr (by norm_num)
    simp [get_region, hc]
  · exact (rectContains_euskadi_iff _ _).mpr (by norm_num)
  · have hnav : rectContains navarraBBoxVertices (-3) 43 = false := by
      apply hnavF
      norm_num
    have hc : rectContains euskadiBBoxVertices (-3) 43 = true :=
      (rectContains_euskadi_iff _ _).mpr (by norm_num)
    simp [get_region, hnav, hc]
  · have hnav : rectContains navarraBBoxVertices (-3.7038) 40.4168 = false := by
      apply hnavF
      norm_num
    have heus : rectContains euskadiBBoxVertices (-3.7038) 40.4168 = false := by
      apply heusF
      norm_num
    simp [get_region, hnav, heus]

/-- Closed instantiation of the quantified parts of
`get_region_classification` at the Pamplona point. -/
theorem get_region_classification_witness :
    get_region (.valid 42.8169 (-1.6432)) = "navarra" :=
  get_region_classification.1 42.8169 (-1.6432)
    (by norm_num) (by norm_num) (by norm_num) (by norm_num)

/-! ## Theorems for the coordinate cache key -/

/-- C6 counterexample.  The two coordinates 0.1234564 and 0.1234566 agree
in their integer part and their first six decimal digits (their floors
after scaling by 10^6 coincide), so they differ only beyond the 6th
decimal place, yet they are rounded to different 6-decimal values and the
coordinate cache keys differ.  This refutes the universally quantified
reading of the claim; the concrete pair named by the claim does produce
identical keys (see the witness of `coord_key_round_congruence`). -/
theorem coord_key_truncation_counterexample :
    ⌊(0.1234564 : ℚ) * 1000000⌋ = ⌊(0.1234566 : ℚ) * 1000000⌋ ∧
    coord_key 0.1234564 0 ≠ coord_key 0.1234566 0 := by
  constructor
  · norm_num
  · have h1 : roundHalfEven ((0.1234564 : ℚ) * 1000000) = 123456 := by
      unfold roundHalfEven
      norm_num
    have h2 : roundHalfEven ((0.1234566 : ℚ) * 1000000) = 123457 := by
      unfold roundHalfEven
      norm_num
    have h0 : roundHalfEven ((0 : ℚ) * 1000000) = 0 := by
      unfold roundHalfEven
      norm_num
    simp only [coord_key, h1, h2, h0]
    decide

/-- C6 amended.  The coordinate cache key depends only on the coordinates
rounded half-to-even at six decimal places: two latitude/longitude pairs
whose components round to the same 6-decimal values produce the same key.
(Pairs agreeing merely in their first six decimal digits can still round
apart, as `coord_key_truncation_counterexample` shows.) -/
theorem coord_key_round_congruence (lat1 lon1 lat2 lon2 : ℚ)
    (hlat : roundHalfEven (lat1 * 1000000) = roundHalfEven (lat2 * 1000000))
    (hlon : roundHalfEven (lon1 * 1000000) = roundHalfEven (lon2 * 1000000)) :
    coord_key lat1 lon1 = coord_key lat2 lon2 := by
  simp [coord_key, hlat, hlon]

/-- Closed instantiation of `coord_key_round_congruence` on the concrete
pair named by the claim. -/
theorem coord_key_round_congruence_witness :
    coord_key 40.4168 (-3.7038) = coord_key 40.4168001 (-3.7038004) := by
  have hlat : roundHalfEven ((40.4168 : ℚ) * 1000000) =
      roundHalfEven ((40.4168001 : ℚ) * 1000000) := by
    unfold roundHalfEven
    norm_num
  have hlon : roundHalfEven ((-3.7038 : ℚ) * 1000000) =
      roundHalfEven ((-3.7038004 : ℚ) * 1000000) := by
    unfold roundHalfEven
    norm_num
  exact coord_key_round_congruence 40.4168 (-3.7038) 40.4168001 (-3.7038004) hlat hlon

/-- C8 counterexample.  On a comma-structured address with no trailing
parenthesized province the source returns both components absent, while
the claimed strategy chain (b)/(c) would extract values from the comma
segments; so the claim, as stated, is false on this input. -/
theorem extract_municipality_province_counterexample :
    extract_municipality_province "C/ MAYOR 1, POZUELO, MADRID" = (none, none) ∧
    claimedExtractMunicipalityProvince "C/ MAYOR 1, POZUELO, MADRID" =
      (some "POZUELO", some "MADRID") ∧
    extract_municipality_province "C/ MAYOR 1, POZUELO, MADRID" ≠
      claimedExtractMunicipalityProvince "C/ MAYOR 1, POZUELO, MADRID" := by
  refine ⟨by decide, by decide, by decide⟩

/-- C8 amended.  The extraction applies only the pattern
`municipality (province)` anchored at the end of the stripped address: it
succeeds on such addresses, and for every address whose stripped form does
not end in a closing parenthesis — in particular any comma-only structure
— both components are absent; no comma-split fallback exists. -/
theorem extract_municipality_province_paren_only :
    extract_municipality_province "POZUELO DE ALARCON (MADRID)" =
      (some "POZUELO DE ALARCON", some "MADRID") ∧
    extract_municipality_province "" = (none, none) ∧
    (∀ a : String, (pyStripChars a.toList).getLast? ≠ some ')' →
      extract_municipality_province a = (none, none)) := by
  refine ⟨by decide, by decide, ?_⟩
  intro a ha
  unfold extract_municipality_province
  by_cases he : a = ""
  · simp [he]
  · rw [if_neg he]
    dsimp only
    split
    · rename_i heq
      exact absurd heq ha
    · rfl

/-- Closed instantiation of the quantified part of
`extract_municipality_province_paren_only` on an address with commas but
no trailing parenthesis. -/
theorem extract_municipality_province_paren_only_witness :
    extract_municipality_province "C/ ALCALA, 1 - 28014 MADRID" = (none, none) :=
  extract_municipality_province_paren_only.2.2 "C/ ALCALA, 1 - 28014 MADRID" (by decide)

theorem dictHasKey_append (d1 d2 : Dict) (k : String) :
    dictHasKey (d1 ++ d2) k = (dictHasKey d1 k || dictHasKey d2 k) := by
  simp only [dictHasKey, dictGet, List.find?_append]
  cases h : d1.find? (fun e => decide (e.1 = k)) with
  | none => simp [h]
  | some e => simp [h]

theorem dictHasKey_single (k k2 : String) (v : JVal) :
    dictHasKey [(k, v)] k2 = decide (k2 = k) := by
  by_cases h : k = k2
  · subst h
    simp [dictHasKey, dictGet, List.find?]
  · simp only [dictHasKey, dictGet, List.find?]
    have h1 : (decide (k = k2)) = false := by simp [h]
    have h2 : (decide (k2 = k)) = false := decide_eq_false (fun hx => h hx.symm)
    rw [h1, h2]
    rfl

theorem dictHasKey_mem (d : Dict) (k : String) :
    dictHasKey d k = true ↔ k ∈ d.map Prod.fst := by
  induction d with
  | nil => simp [dictHasKey, dictGet]
  | cons e rest ih =>
    simp only [dictHasKey, dictGet, List.find?, List.map, List.mem_cons]
    by_cases he : e.1 = k
    · simp [he]
    · have h1 : (decide (e.1 = k)) = false := by simp [he]
      rw [h1]
      simp only [dictHasKey, dictGet] at ih
      constructor
      · intro hx
        right
        exact ih.mp hx
      · rintro (hx | hx)
        · exact absurd hx.symm he
        · exact ih.mpr hx

theorem dictHasKey_setdefault (d : Dict) (k k2 : String) (v : JVal) :
    dictHasKey (dictSetdefault d k v) k2 = (dictHasKey d k2 || decide (k2 = k)) := by
  by_cases h : dictHasKey d k
  · rw [dictSetdefault, if_pos h]
    by_cases h2 : k2 = k
    · subst h2
      simp [h]
    · simp [h2]
  · rw [dictSetdefault, if_neg h, dictHasKey_append, dictHasKey_single]

theorem dictHasKey_assign (d : Dict) (k k2 : String) (v : JVal) :
    dictHasKey (dictAssign d k v) k2 = (dictHasKey d k2 || decide (k2 = k)) := by
  by_cases h : dictHasKey d k
  · rw [dictAssign, if_pos h]
    have hkeys : (d.map (fun e => if e.1 = k then (k, v) else e)).map Prod.fst =
        d.map Prod.fst := by
      rw [List.map_map]
      apply List.map_congr_left
      intro e _
      by_cases hek : e.1 = k
      · simp [hek]
      · simp [hek]
    have h1 := dictHasKey_mem (d.map (fun e => if e.1 = k then (k, v) else e)) k2
    rw [hkeys] at h1
    have h2 := dictHasKey_mem d k2
    have hmap : dictHasKey (d.map (fun e => if e.1 = k then (k, v) else e)) k2 =
        dictHasKey d k2 :=
      Bool.eq_iff_iff.mpr (h1.trans h2.symm)
    rw [hmap]
    by_cases h2k : k2 = k
    · subst h2k
      simp [h]
    · simp [h2k]
  · rw [dictAssign, if_neg h, dictHasKey_append, dictHasKey_single]

/-- C1 counterexample.  Soft-deleting the only parcel keeps the row count
and removes it from the tenant listing, but `get_parcel` then answers 200
with the (inactive) row where the claim asserts a 404: the by-id query has
no `is_active` condition. -/
theorem soft_delete_get_counterexample :
    (delete_parcel [⟨"p1", "t1", true, "REF1", 0⟩] "p1").1 = 200 ∧
    (delete_parcel [⟨"p1", "t1", true, "REF1", 0⟩] "p1").2.length = 1 ∧
    list_parcels (delete_parcel [⟨"p1", "t1", true, "REF1", 0⟩] "p1").2 "t1" = [] ∧
    (get_parcel (delete_parcel [⟨"p1", "t1", true, "REF1", 0⟩] "p1").2 "p1").1 = 200 ∧
    (get_parcel (delete_parcel [⟨"p1", "t1", true, "REF1", 0⟩] "p1").2 "p1").2 =
      some ⟨"p1", "t1", false, "REF1", 0⟩ := by
  refine ⟨by decide, by decide, by decide, by decide, by decide⟩

/-- C1 amended.  After the soft delete of an existing parcel the row still
exists (row count unchanged) and the parcel is excluded from the
list-parcels response of every tenant; but `get_parcel` does not filter on
`is_active` and still answers 200 for that id, so only the listing — not
the by-id read — hides inactive parcels. -/
theorem soft_delete_semantics (store : List ParcelRow) (pid : String)
    (hex : store.any (fun r => decide (r.id = pid)) = true) :
    (delete_parcel store pid).1 = 200 ∧
    (delete_parcel store pid).2.length = store.length ∧
    (∀ t r, r ∈ list_parcels (delete_parcel store pid).2 t → r.id ≠ pid) ∧
    (get_parcel (delete_parcel store pid).2 pid).1 = 200 := by
  have hdel : delete_parcel store pid =
      (200, store.map (fun r => if r.id = pid then { r with is_active := false } else r)) := by
    rw [delete_parcel]
    simp [hex]
  refine ⟨by rw [hdel], by rw [hdel]; simp, ?_, ?_⟩
  · intro t r hr hid
    rw [hdel] at hr
    simp only [list_parcels, List.mem_filter, List.mem_map] at hr
    obtain ⟨⟨orig, horig, hmap⟩, hcond⟩ := hr
    by_cases ho : orig.id = pid
    · rw [if_pos ho] at hmap
      rw [← hmap] at hcond
      simp at hcond
    · rw [if_neg ho] at hmap
      rw [← hmap] at hid
      exact ho hid
  · rw [hdel]
    have hmem : ∃ x ∈ store.map
        (fun r => if r.id = pid then { r with is_active := false } else r),
        (decide (x.id = pid)) = true := by
      rw [List.any_eq_true] at hex
      obtain ⟨r, hr, hpr⟩ := hex
      refine ⟨if r.id = pid then { r with is_active := false } else r,
        List.mem_map_of_mem _ hr, ?_⟩
      have hid : r.id = pid := of_decide_eq_true hpr
      rw [if_pos hid]
      simpa using hid
    simp only [get_parcel]
    cases hfind : (store.map
        (fun r => if r.id = pid then { r with is_active := false } else r)).find?
        (fun r => decide (r.id = pid)) with
    | some r => simp
    | none =>
      rw [List.find?_eq_none] at hfind
      obtain ⟨x, hx, hpx⟩ := hmem
      exact absurd hpx (by simpa using hfind x hx)

/-- Closed instantiation of `soft_delete_semantics` on a two-row store. -/
theorem soft_delete_semantics_witness :
    (delete_parcel [⟨"p2", "t2", true, "R2", 0⟩, ⟨"p3", "t2", true, "R3", 1⟩] "p2").2.length = 2 ∧
    (get_parcel (delete_parcel
      [⟨"p2", "t2", true, "R2", 0⟩, ⟨"p3", "t2", true, "R3", 1⟩] "p2").2 "p2").1 = 200 := by
  have h := soft_delete_semantics
    [⟨"p2", "t2", true, "R2", 0⟩, ⟨"p3", "t2", true, "R3", 1⟩] "p2" (by decide)
  exact ⟨h.2.1, h.2.2.2⟩

/-- C9.  When the submitted id list is non-empty but no visible parcel
with one of the ids has NDVI enabled, the batch endpoint does not answer
an error status: it answers 207 with `requested` equal to the number of
submitted ids, `valid`, `successful` and `failed` all zero, and empty
`jobs` and `errors` lists. -/
theorem batch_ndvi_zero_valid (store : List NdviParcelRow)
    (oracle : NdviParcelRow → JobOutcome) (ids : List String)
    (hne : ids ≠ [])
    (hnone : ∀ r ∈ store, r.id ∈ ids → r.ndvi_enabled = false) :
    batch_request_ndvi store oracle ids =
      (207, some { requested := ids.length, valid := 0, successful := 0, failed := 0,
                   jobs := [], errors := [] }) := by
  have hv : batch_valid_parcels store ids = [] := by
    rw [batch_valid_parcels, List.filter_eq_nil_iff]
    intro r hr
    by_cases hid : r.id ∈ ids
    · simp [hid, hnone r hr hid]
    · simp [hid]
  rw [batch_request_ndvi, if_neg hne]
  simp [hv, batchLoop]

/-- Closed instantiation of `batch_ndvi_zero_valid`: two ids submitted,
the only matching parcel has NDVI disabled. -/
theorem batch_ndvi_zero_valid_witness :
    batch_request_ndvi [⟨"p1", false, none, none⟩] (fun _ => .httpError "boom")
        ["p1", "p9"] =
      (207, some { requested := 2, valid := 0, successful := 0, failed := 0,
                   jobs := [], errors := [] }) :=
  batch_ndvi_zero_valid [⟨"p1", false, none, none⟩] (fun _ => .httpError "boom")
    ["p1", "p9"] (by decide) (by decide)

/-- C5.  The gateway-trust contract: a missing or malformed authorization
header is rejected 401 with the missing-header message; an expired token
is rejected 401; any other decode failure is rejected 500 with the
authentication-error message; with a decoded payload, a falsy resolved
tenant is rejected 401 with the tenant-not-found message and a truthy one
lets the handler run with the context populated from the claims; tenant
resolution takes the `X-Tenant-ID` header first and otherwise the
`tenant-id`, `tenant_id`, `tenant` claims in that order. -/
theorem require_auth_contract (decode : String → DecodeResult) (req : AuthRequest) :
    (req.authorization = none →
      require_auth decode req = .reject 401 "Missing or invalid authorization header") ∧
    (∀ h, req.authorization = some h → startsWithBearer h = false →
      require_auth decode req = .reject 401 "Missing or invalid authorization header") ∧
    (∀ h, req.authorization = some h → startsWithBearer h = true →
      decode (bearerToken h) = .expired →
      require_auth decode req = .reject 401 "Token has expired") ∧
    (∀ h, req.authorization = some h → startsWithBearer h = true →
      decode (bearerToken h) = .failure →
      require_auth decode req = .reject 500 "Authentication error") ∧
    (∀ h p, req.authorization = some h → startsWithBearer h = true →
      decode (bearerToken h) = .ok p → pyTruthy (resolvedTenant req p) = false →
      require_auth decode req = .reject 401 "Tenant ID not found") ∧
    (∀ h p t, req.authorization = some h → startsWithBearer h = true →
      decode (bearerToken h) = .ok p → resolvedTenant req p = some t → t ≠ "" →
      require_auth decode req = .allow
        { current_user := p, tenant := t, tenant_id := t,
          user_id := claimGet p "sub", username := claimGet p "preferred_username",
          email := claimGet p "email", roles := p.roles }) ∧
    (∀ p t, req.xTenantId = some t → t ≠ "" → resolvedTenant req p = some t) ∧
    (∀ p, pyTruthy req.xTenantId = false →
      resolvedTenant req p =
        pyOrS (claimGet p "tenant-id")
          (pyOrS (claimGet p "tenant_id") (claimGet p "tenant"))) ∧
    (∀ p v, pyTruthy req.xTenantId = false → claimGet p "tenant-id" = some v → v ≠ "" →
      resolvedTenant req p = some v) := by
  refine ⟨?_, ?_, ?_, ?_, ?_, ?_, ?_, ?_, ?_⟩
  · intro h
    simp [require_auth, h]
  · intro h hh hb
    simp [require_auth, hh, hb]
  · intro h hh hb hd
    simp [require_auth, hh, hb, hd]
  · intro h hh hb hd
    simp [require_auth, hh, hb, hd]
  · intro h p hh hb hd hfalsy
    cases hres : resolvedTenant req p with
    | none => simp [require_auth, hh, hb, hd, hres]
    | some t =>
      rw [hres] at hfalsy
      have ht : t = "" := by
        by_contra hx
        simp [pyTruthy, hx] at hfalsy
      subst ht
      simp [require_auth, hh, hb, hd, hres]
  · intro h p t hh hb hd hres ht
    simp [require_auth, hh, hb, hd, hres, ht]
  · intro p t hx ht
    simp [resolvedTenant, hx, pyOrS, ht]
  · intro p hx
    cases hh : req.xTenantId with
    | none => simp [resolvedTenant, hh, pyOrS]
    | some t =>
      rw [hh] at hx
      have ht : t = "" := by
        by_contra hy
        simp [pyTruthy, hy] at hx
      subst ht
      simp [resolvedTenant, hh, pyOrS]
  · intro p v hx hc hv
    cases hh : req.xTenantId with
    | none => simp [resolvedTenant, hh, pyOrS, hc, hv]
    | some t =>
      rw [hh] at hx
      have ht : t = "" := by
        by_contra hy
        simp [pyTruthy, hy] at hx
      subst ht
      simp [resolvedTenant, hh, pyOrS, hc, hv]

/-- Closed instantiation of `require_auth_contract`: an expired token on a
well-formed header is rejected 401. -/
theorem require_auth_contract_witness :
    require_auth (fun _ => .expired) ⟨some "Bearer sometoken", none⟩ =
      .reject 401 "Token has expired" :=
  (require_auth_contract (fun _ => .expired) ⟨some "Bearer sometoken", none⟩).2.2.1
    "Bearer sometoken" rfl (by decide) rfl

theorem navarraProcessFeature_keys (f : WfsFeature) (lon lat : ℚ) (d : Dict)
    (hd : navarraProcessFeature f lon lat = some d) :
    d.map Prod.fst = normalizedKeys := by
  rw [navarraProcessFeature] at hd
  split at hd
  · exact absurd hd (by simp)
  · cases hd
    rfl

/-- C2 counterexample.  With two feature types both returning features,
the Navarra client produces exactly the same response as when the second
type returns nothing — the features of later types can therefore not be
collected into the response — and the response is a single-candidate dict
whose keys are exactly the seven normalized fields, with no candidate
list and only the reference of the first feature. -/
theorem navarra_query_single_candidate_counterexample :
    navarra_query_by_coordinates navOracleTwoTypes ["TypeA", "TypeB"] 0 43 =
      navarra_query_by_coordinates navOracleFirstOnly ["TypeA", "TypeB"] 0 43 ∧
    navarra_query_by_coordinates navOracleTwoTypes ["TypeA", "TypeB"] 0 43 =
      some navResultREF1 ∧
    navResultREF1.map Prod.fst = normalizedKeys ∧
    dictHasKey navResultREF1 "allCandidates" = false ∧
    dictGet navResultREF1 "cadastralReference" = some (.str "REF1") := by
  refine ⟨rfl, rfl, rfl, rfl, rfl⟩

/-- C2 amended.  The Navarra client tries the resolved feature types in
order and stops at the first one whose response carries a non-empty
feature list; it processes only the first feature of that response, and
any successful result is a single-candidate dict with exactly the seven
normalized keys (no list of further candidates). -/
theorem navarra_query_stops_at_first_type (oracle : String → WfsResp)
    (types : List String) (lon lat : ℚ) :
    navarraTryTypes oracle types =
      (types.find? (fun t => (respFeatures (oracle t)).isSome)).bind
        (fun t => respFeatures (oracle t)) ∧
    navarra_query_by_coordinates oracle types lon lat =
      ((types.find? (fun t => (respFeatures (oracle t)).isSome)).bind
        (fun t => respFeatures (oracle t))).bind
        (fun fs => fs.head?.bind (fun f => navarraProcessFeature f lon lat)) ∧
    (∀ d, navarra_query_by_coordinates oracle types lon lat = some d →
      d.map Prod.fst = normalizedKeys) := by
  have h1 : navarraTryTypes oracle types =
      (types.find? (fun t => (respFeatures (oracle t)).isSome)).bind
        (fun t => respFeatures (oracle t)) := by
    induction types with
    | nil => rfl
    | cons t rest ih =>
      cases hr : respFeatures (oracle t) with
      | some fs => simp [navarraTryTypes, List.find?, hr]
      | none => simp [navarraTryTypes, List.find?, hr, ih]
  refine ⟨h1, ?_, ?_⟩
  · rw [← h1]
    cases hv : navarraTryTypes oracle types with
    | none => simp [navarra_query_by_coordinates, hv]
    | some fs =>
      cases fs with
      | nil => simp [navarra_query_by_coordinates, hv]
      | cons f rest => simp [navarra_query_by_coordinates, hv]
  · intro d hd
    rw [navarra_query_by_coordinates] at hd
    cases hv : navarraTryTypes oracle types with
    | none => rw [hv] at hd; exact absurd hd (by simp)
    | some fs =>
      rw [hv] at hd
      cases fs with
      | nil => exact absurd hd (by simp)
      | cons f rest => exact navarraProcessFeature_keys f lon lat d hd

/-- Closed instantiation of `navarra_query_stops_at_first_type` in the
two-type scenario. -/
theorem navarra_query_stops_at_first_type_witness :
    navarra_query_by_coordinates navOracleTwoTypes ["TypeA", "TypeB"] 0 43 =
      (((["TypeA", "TypeB"] : List String).find?
          (fun t => (respFeatures (navOracleTwoTypes t)).isSome)).bind
        (fun t => respFeatures (navOracleTwoTypes t))).bind
        (fun fs => fs.head?.bind (fun f => navarraProcessFeature f 0 43)) ∧
    navResultREF1.map Prod.fst = normalizedKeys :=
  ⟨(navarra_query_stops_at_first_type navOracleTwoTypes ["TypeA", "TypeB"] 0 43).2.1,
   (navarra_query_stops_at_first_type navOracleTwoTypes ["TypeA", "TypeB"] 0 43).2.2
     navResultREF1 rfl⟩

theorem dispatchClient_cases (spainQ navarraQ euskadiQ : ℚ → ℚ → Option Dict)
    (region : String) (lon lat : ℚ) (d : Dict)
    (hd : dispatchClient spainQ navarraQ euskadiQ region lon lat = some d) :
    spainQ lon lat = some d ∨ navarraQ lon lat = some d ∨ euskadiQ lon lat = some d := by
  rw [dispatchClient] at hd
  split at hd
  · exact Or.inl hd
  · split at hd
    · exact Or.inr (Or.inl hd)
    · exact Or.inr (Or.inr hd)

theorem normalizeClientData_hasKey (d : Dict) (lon lat : ℚ) (region : String)
    (hsub : ∀ k, dictHasKey d k = true → k ∈ normalizedKeys) (k : String) :
    dictHasKey (normalizeClientData d lon lat region) k = true ↔ k ∈ normalizedKeys := by
  have h := hsub k
  rw [normalizeClientData, dictHasKey_assign, dictHasKey_setdefault, dictHasKey_setdefault,
    dictHasKey_setdefault, dictHasKey_setdefault, dictHasKey_setdefault, dictHasKey_setdefault]
  simp only [Bool.or_eq_true, decide_eq_true_eq, normalizedKeys, List.mem_cons,
    List.not_mem_nil, or_false] at h ⊢
  tauto

theorem notFoundResponse_hasKey (lon lat : ℚ) (region : String) (k : String) :
    dictHasKey (notFoundResponse lon lat region) k = true ↔ k ∈ notFoundKeys := by
  rw [dictHasKey_mem]
  simp [notFoundResponse, notFoundKeys, normalizedKeys]

/-- C4.  For every coordinate pair passing the bounds validation, and
regional clients whose found results only carry normalized field names
(as the embedded clients do), the endpoint answers either 200 with a body
whose key set is exactly the seven normalized keys, or 404 with a body
whose key set is exactly those seven plus `error` and `message` — never a
sparse subset. -/
theorem query_by_coordinates_normalized_shape
    (spainQ navarraQ euskadiQ : ℚ → ℚ → Option Dict) (lon lat : ℚ)
    (hlon1 : (-10 : ℚ) ≤ lon) (hlon2 : lon ≤ 5) (hlat1 : (35 : ℚ) ≤ lat) (hlat2 : lat ≤ 45)
    (hkeys : ∀ d, (spainQ lon lat = some d ∨ navarraQ lon lat = some d ∨
        euskadiQ lon lat = some d) → ∀ k, dictHasKey d k = true → k ∈ normalizedKeys) :
    ((query_by_coordinates spainQ navarraQ euskadiQ lon lat).1 = 200 ∧
      (∀ k, dictHasKey (query_by_coordinates spainQ navarraQ euskadiQ lon lat).2 k = true ↔
        k ∈ normalizedKeys)) ∨
    ((query_by_coordinates spainQ navarraQ euskadiQ lon lat).1 = 404 ∧
      (∀ k, dictHasKey (query_by_coordinates spainQ navarraQ euskadiQ lon lat).2 k = true ↔
        k ∈ notFoundKeys)) := by
  have hcond : ¬ (¬ ((-10 : ℚ) ≤ lon ∧ lon ≤ 5) ∨ ¬ ((35 : ℚ) ≤ lat ∧ lat ≤ 45)) := by
    push_neg
    exact ⟨⟨hlon1, hlon2⟩, hlat1, hlat2⟩
  rw [query_by_coordinates, if_neg hcond]
  cases hc : dispatchClient spainQ navarraQ euskadiQ (get_region (.valid lat lon)) lon lat with
  | some d =>
    left
    refine ⟨rfl, ?_⟩
    intro k
    exact normalizeClientData_hasKey d lon lat _
      (hkeys d (dispatchClient_cases _ _ _ _ _ _ d hc)) k
  | none =>
    right
    exact ⟨rfl, fun k => notFoundResponse_hasKey lon lat _ k⟩

/-- Closed instantiation of `query_by_coordinates_normalized_shape` with
all clients reporting not-found at the Madrid coordinates. -/
theorem query_by_coordinates_normalized_shape_witness :
    (((query_by_coordinates (fun _ _ => none) (fun _ _ => none) (fun _ _ => none)
        (-3.7038) 40.4168).1 = 200 ∧
      (∀ k, dictHasKey (query_by_coordinates (fun _ _ => none) (fun _ _ => none)
          (fun _ _ => none) (-3.7038) 40.4168).2 k = true ↔ k ∈ normalizedKeys)) ∨
     ((query_by_coordinates (fun _ _ => none) (fun _ _ => none) (fun _ _ => none)
        (-3.7038) 40.4168).1 = 404 ∧
      (∀ k, dictHasKey (query_by_coordinates (fun _ _ => none) (fun _ _ => none)
          (fun _ _ => none) (-3.7038) 40.4168).2 k = true ↔ k ∈ notFoundKeys))) :=
  query_by_coordinates_normalized_shape (fun _ _ => none) (fun _ _ => none) (fun _ _ => none)
    (-3.7038) 40.4168 (by norm_num) (by norm_num) (by norm_num) (by norm_num)
    (by rintro d (h | h | h) <;> exact absurd h (by simp))
